import Mathlib

/-!
Verification development for the `ai-speech-worker` request handler
(`src/index.ts`).  The worker's `fetch` entry point is embedded as a pure
Lean function over an explicit request model, an environment record, a
handler state (module-level translator reference plus the `"ai-speech"`
cache), and a `World` record holding the outcomes of the external
effectful collaborators (JSON parsing, the translation-sheet loader, the
AI gateway, and cache-write failures).  The handler returns the HTTP
response together with the updated state and a trace of the cache and
gateway operations it performed.
-/

namespace AiSpeech

/-- JSON values, as produced by `JSON.parse` / consumed by
`JSON.stringify`.  Numbers are modelled as integers (every numeric value
appearing in this worker is an integer). -/
inductive Json where
  | null : Json
  | jbool : Bool → Json
  | jnum : Int → Json
  | jstr : String → Json
  | jarr : List Json → Json
  | jobj : List (String × Json) → Json

/-- Last-occurrence lookup in an object's field list (JavaScript objects
built by `JSON.parse` keep the last duplicate key). -/
def objLookup (k : String) : List (String × Json) → Option Json
  | [] => none
  | (k', v) :: rest =>
    match objLookup k rest with
    | some v' => some v'
    | none => if k' = k then some v else none

/-- JavaScript member access `v.k`: throws a `TypeError` on `null`,
yields `undefined` (`none`) on primitives and arrays, looks the key up on
objects.  The thrown message is engine-specific; a fixed abbreviation is
used. -/
def jsGet (v : Json) (k : String) : Except String (Option Json) :=
  match v with
  | .null => .error ("Cannot read properties of null (reading " ++ k ++ ")")
  | .jobj fields => .ok (objLookup k fields)
  | _ => .ok none

/-- JavaScript index access `v[0]` where `v` may be `undefined`:
throws on `undefined`/`null`, indexes arrays and strings, treats other
primitives as having no elements. -/
def jsIndex0 (v : Option Json) : Except String (Option Json) :=
  match v with
  | none => .error "Cannot read properties of undefined (reading 0)"
  | some .null => .error "Cannot read properties of null (reading 0)"
  | some (.jarr xs) => .ok (xs.get? 0)
  | some (.jstr s) => .ok ((s.data.get? 0).map fun c => .jstr (String.mk [c]))
  | some (.jobj fields) => .ok (objLookup "0" fields)
  | some _ => .ok none

/-- JavaScript truthiness of a possibly-`undefined` value. -/
def jsTruthy (v : Option Json) : Bool :=
  match v with
  | none => false
  | some .null => false
  | some (.jbool b) => b
  | some (.jnum n) => n ≠ 0
  | some (.jstr s) => s ≠ ""
  | some (.jarr _) => true
  | some (.jobj _) => true

/-- Hex digit for `\uXXXX` escapes. -/
def hexDigit (n : Nat) : Char :=
  if n < 10 then Char.ofNat (48 + n) else Char.ofNat (87 + n)

/-- Four-digit lowercase hex, as in JavaScript's JSON control-character
escapes. -/
def hex4 (n : Nat) : String :=
  String.mk [hexDigit (n / 4096 % 16), hexDigit (n / 256 % 16),
             hexDigit (n / 16 % 16), hexDigit (n % 16)]

/-- `JSON.stringify` escaping of one character inside a string literal. -/
def escChar (c : Char) : String :=
  if c = '"' then "\\\""
  else if c = '\\' then "\\\\"
  else if c = Char.ofNat 8 then "\\b"
  else if c = Char.ofNat 9 then "\\t"
  else if c = Char.ofNat 10 then "\\n"
  else if c = Char.ofNat 12 then "\\f"
  else if c = Char.ofNat 13 then "\\r"
  else if c.toNat < 32 then "\\u" ++ hex4 c.toNat
  else String.mk [c]

/-- `JSON.stringify` of a string value. -/
def jsonQuote (s : String) : String :=
  "\"" ++ String.join (s.data.map escChar) ++ "\""

mutual

/-- `JSON.stringify`, restricted to the `Json` model (no `undefined`
members to drop). -/
def jsonStringify : Json → String
  | .null => "null"
  | .jbool b => if b then "true" else "false"
  | .jnum n => toString n
  | .jstr s => jsonQuote s
  | .jarr xs => "[" ++ stringifyElems xs ++ "]"
  | .jobj fields => "\x7b" ++ stringifyFields fields ++ "\x7d"

/-- Comma-separated serialization of array elements. -/
def stringifyElems : List Json → String
  | [] => ""
  | [x] => jsonStringify x
  | x :: rest => jsonStringify x ++ "," ++ stringifyElems rest

/-- Comma-separated serialization of object fields, in insertion order. -/
def stringifyFields : List (String × Json) → String
  | [] => ""
  | [(k, v)] => jsonQuote k ++ ":" ++ jsonStringify v
  | (k, v) :: rest => jsonQuote k ++ ":" ++ jsonStringify v ++ "," ++ stringifyFields rest

end

/-- UTF-16 code units of a string (what `charCodeAt` iterates over);
scalar values beyond the BMP split into a surrogate pair. -/
def utf16Units (s : String) : List Nat :=
  s.data.foldr
    (fun c acc =>
      if c.toNat < 65536 then c.toNat :: acc
      else (55296 + (c.toNat - 65536) / 1024) :: (56320 + (c.toNat - 65536) % 1024) :: acc)
    []

/-- JavaScript `ToInt32`: wrap an integer into the signed 32-bit range. -/
def toInt32 (z : Int) : Int :=
  (z + 2 ^ 31) % 2 ^ 32 - 2 ^ 31

/-- One loop iteration of `simpleHash`:
`hash = ((hash << 5) - hash) + c; hash |= 0`.  The shift is itself a
32-bit operation, and `|= 0` truncates the exact intermediate sum. -/
def simpleHashStep (h : Int) (c : Nat) : Int :=
  toInt32 (toInt32 (h * 32) - h + c)

/-- `simpleHash` from `src/index.ts`: a 32-bit rolling hash over the
UTF-16 code units, rendered in decimal (signed). -/
def simpleHash (s : String) : String :=
  toString ((utf16Units s).foldl simpleHashStep 0)

/-- Cache-format version tag (`VERSION` in `src/index.ts`). -/
def VERSION : String := "1.0.2"

/-- Worker environment bindings.  A missing binding is modelled as the
empty string (both are falsy where the code tests them). -/
structure Env where
  OPENAI_API_KEY : String
  SYSTEM_PROMPT : String
  AI_GATEWAY_TOKEN : String
  AI_GATEWAY_URL : String
  SHEETS_SERVICE_KEY_JSON : String
  SPREADSHEET_ID : String
  SHEET_NAME : String
  deriving Repr, DecidableEq

/-- The inbound request, reduced to the pieces `fetch` reads: method,
URL path and origin, query parameters (`url.searchParams.get`), and the
outcome of `request.json()` for POST bodies (`.error msg` models a
rejected body parse). -/
structure Request where
  method : String
  pathname : String
  origin : String
  searchParams : String → Option String
  bodyJson : Except String Json

/-- An HTTP response, reduced to status and body text (headers beyond
the CORS decoration are not modelled; `addCorsHeaders` changes neither
status nor body). -/
structure HttpResponse where
  status : Nat
  body : String
  deriving Repr, DecidableEq

/-- The `"ai-speech"` cache: stored responses addressed by URL-shaped
string keys. -/
def Cache : Type := String → Option HttpResponse

/-- `cache.put`. -/
def cacheInsert (c : Cache) (k : String) (r : HttpResponse) : Cache :=
  fun k' => if k' = k then some r else c k'

/-- `cache.delete`. -/
def cacheRemove (c : Cache) (k : String) : Cache :=
  fun k' => if k' = k then none else c k'

/-- Module-level handler state: the lazily-initialized translator
reference and the cache contents. -/
structure HState where
  translator : Option (String → String)
  cache : Cache

/-- The request payload sent to the AI gateway. -/
structure GatewayRequest where
  url : String
  apiKey : String
  gatewayToken : String
  body : String
  deriving Repr, DecidableEq

/-- The upstream gateway's answer: HTTP status and raw body text. -/
structure GatewayResponse where
  status : Nat
  body : String
  deriving Repr, DecidableEq

/-- One observable external operation performed while handling a
request. -/
inductive Op where
  | cacheMatch : String → Op
  | cachePut : String → Op
  | cacheDelete : String → Op
  | gatewayCall : GatewayRequest → Op
  deriving Repr, DecidableEq

/-- Outcomes of the external collaborators, fixed for one request:
`jsonParse` is `JSON.parse` / `Response.json()` (`.error` = thrown
`SyntaxError` with that message); `fetchTranslations` and
`getTranslatorFromTranslations` — modelled from the spec: the
translation-sheet loader lives outside this repository — produce the
translations structure and the translator lookup capability;
`putError k = some msg` means `cache.put` on key `k` throws `msg`;
`gateway` is the upstream fetch. -/
structure World where
  jsonParse : String → Except String Json
  fetchTranslations : Except String Json
  getTranslatorFromTranslations : Option Json → Except String (String → String)
  putError : String → Option String
  gateway : GatewayRequest → GatewayResponse

/-- Truthiness of `url.searchParams.get("clear-cache")`: present and
non-empty. -/
def clearCacheRequested (req : Request) : Bool :=
  match req.searchParams "clear-cache" with
  | some s => s ≠ ""
  | none => false

/-- `TRANSLATION_CACHE_KEY`. -/
def translationCacheKey (origin : String) (env : Env) : String :=
  origin ++ "/ai-speech-" ++ env.SPREADSHEET_ID ++ "-" ++ env.SHEET_NAME

/-- The voice-list cache key also deleted by the clear-cache branch. -/
def voiceListCacheKey (origin : String) : String :=
  origin ++ "/list-voices?v=" ++ VERSION

/-- Body `{"error": msg}`. -/
def errorBody (msg : String) : String :=
  jsonStringify (.jobj [("error", .jstr msg)])

/-- Body `{"response": v}`. -/
def responseBody (v : Json) : String :=
  jsonStringify (.jobj [("response", v)])

/-- The `CACHE_KEY` for the response cache, over the translated events
and prompt. -/
def cacheKey (origin : String) (events : List Json) (prompt : Json) : String :=
  origin ++ "/response?hash=" ++
    simpleHash (jsonStringify (.jobj [("events", .jarr events), ("prompt", prompt)])) ++
    "&v=" ++ VERSION

/-- Optional-chaining index `translations?.[k]`: `null` yields
`undefined` instead of throwing; primitives have no members. -/
def jsGetOpt (v : Json) (k : String) : Option Json :=
  match v with
  | .jobj fields => objLookup k fields
  | _ => none

/-- Result of the translator-initialization block (`src/index.ts` lines
41–84): either an early `return` (clear-cache confirmation or an
initialization failure) or the translator, with the updated cache and
the operations performed. -/
inductive InitResult where
  | exit : HttpResponse → Cache → List Op → InitResult
  | ready : (String → String) → Cache → List Op → InitResult

/-- The clear-cache branch: delete the translation cache entry and the
voice-list entry, answer `{response: "Cache cleared"}`. -/
def clearCacheExit (env : Env) (st : HState) (req : Request) : InitResult :=
  let tkey := translationCacheKey req.origin env
  let vkey := voiceListCacheKey req.origin
  .exit ⟨200, responseBody (.jstr "Cache cleared")⟩
    (cacheRemove (cacheRemove st.cache tkey) vkey)
    [.cacheDelete tkey, .cacheDelete vkey]

/-- Build the translator from the translations structure:
`getTranslatorFromTranslations(translations?.[env.SHEET_NAME])`; a
thrown construction error answers 500 `Failed to initialize
translator`. -/
def buildTranslator (w : World) (env : Env) (translations : Json)
    (cache : Cache) (ops : List Op) : InitResult :=
  match w.getTranslatorFromTranslations (jsGetOpt translations env.SHEET_NAME) with
  | .error _ => .exit ⟨500, errorBody "Failed to initialize translator"⟩ cache ops
  | .ok tr => .ready tr cache ops

/-- Fresh initialization on a missing in-memory translator: read the
translation cache entry; on a miss fetch the sheet and write it through
(a fetch or write failure answers 500); then build the translator.  A
parse failure on the cached body is an uncaught exception, surfacing as
a bare runtime 500. -/
def initFresh (w : World) (env : Env) (st : HState) (req : Request) : InitResult :=
  let tkey := translationCacheKey req.origin env
  match st.cache tkey with
  | some resp =>
    match w.jsonParse resp.body with
    | .error _ => .exit ⟨500, ""⟩ st.cache [.cacheMatch tkey]
    | .ok translations => buildTranslator w env translations st.cache [.cacheMatch tkey]
  | none =>
    match w.fetchTranslations with
    | .error _ =>
      .exit ⟨500, errorBody "Failed to initialize translator"⟩ st.cache [.cacheMatch tkey]
    | .ok translations =>
      match w.putError tkey with
      | some _ =>
        .exit ⟨500, errorBody "Failed to initialize translator"⟩ st.cache
          [.cacheMatch tkey, .cachePut tkey]
      | none =>
        buildTranslator w env translations
          (cacheInsert st.cache tkey ⟨200, jsonStringify translations⟩)
          [.cacheMatch tkey, .cachePut tkey]

/-- The `if (!translator || url.searchParams.get("clear-cache"))` block:
a ready translator without a clear-cache request passes straight
through; a clear-cache request short-circuits in either state; an unset
translator initializes. -/
def initTranslator (w : World) (env : Env) (st : HState) (req : Request) : InitResult :=
  match st.translator with
  | some tr =>
    if clearCacheRequested req then clearCacheExit env st req
    else .ready tr st.cache []
  | none =>
    if clearCacheRequested req then clearCacheExit env st req
    else initFresh w env st req

/-- Outcome of the request normalizer: a 400 rejection or the raw
(untranslated) events array and prompt value. -/
inductive NormResult where
  | reject : HttpResponse → NormResult
  | accept : List Json → Json → NormResult

/-- GET normalization (`src/index.ts` lines 99–120): prompt from the
`prompt` parameter falling back to the legacy `finalPrompt`, rejected
when absent or empty; events from a JSON-encoded `events` parameter
(skipped when absent or empty), rejected unless it parses to an
array. -/
def normalizeGet (w : World) (req : Request) : NormResult :=
  let prompt :=
    match req.searchParams "prompt" with
    | some p => some p
    | none => req.searchParams "finalPrompt"
  match prompt with
  | none => .reject ⟨400, errorBody "Missing \"prompt\" query parameter"⟩
  | some p =>
    if p = "" then .reject ⟨400, errorBody "Missing \"prompt\" query parameter"⟩
    else
      match req.searchParams "events" with
      | none => .accept [] (.jstr p)
      | some "" => .accept [] (.jstr p)
      | some s =>
        match w.jsonParse s with
        | .error msg => .reject ⟨400, errorBody ("Invalid \"events\" format: " ++ msg)⟩
        | .ok (.jarr xs) => .accept xs (.jstr p)
        | .ok _ =>
          .reject ⟨400, errorBody "Invalid \"events\" format: Events must be an array"⟩

/-- POST normalization (`src/index.ts` lines 121–143): parse the JSON
body, take `events = body.events || []` and `prompt = body.prompt`;
reject a falsy prompt (400 missing prompt, checked before the array
check), then reject non-array events.  A body-parse failure or a
member-access `TypeError` lands in the same catch (400 invalid JSON
body). -/
def normalizePost (req : Request) : NormResult :=
  match req.bodyJson with
  | .error msg => .reject ⟨400, errorBody ("Invalid JSON body: " ++ msg)⟩
  | .ok body =>
    match jsGet body "events" with
    | .error msg => .reject ⟨400, errorBody ("Invalid JSON body: " ++ msg)⟩
    | .ok evOpt =>
      let events : Json :=
        match evOpt with
        | some v => if jsTruthy (some v) then v else .jarr []
        | none => .jarr []
      match jsGet body "prompt" with
      | .error msg => .reject ⟨400, errorBody ("Invalid JSON body: " ++ msg)⟩
      | .ok none => .reject ⟨400, errorBody "Missing \"prompt\" in body"⟩
      | .ok (some p) =>
        if jsTruthy (some p) then
          match events with
          | .jarr xs => .accept xs p
          | _ => .reject ⟨400, errorBody "Events must be an array"⟩
        else .reject ⟨400, errorBody "Missing \"prompt\" in body"⟩

/-- `translator.translate`, lifted to the JSON values this worker can
pass it.  The translator itself is external (modelled from the spec: a
pure lookup with identity fallback on a missing key); the worker only
ever produces string keys, and non-string values are passed through. -/
def translateJson (tr : String → String) : Json → Json
  | .jstr s => .jstr (tr s)
  | v => v

/-- `objAssign fields k v`: JavaScript property assignment on an
object's field list — replace an existing key in place, append
otherwise. -/
def objAssign (fields : List (String × Json)) (k : String) (v : Json) :
    List (String × Json) :=
  if (objLookup k fields).isSome then
    fields.map fun p => if p.1 = k then (k, v) else p
  else fields ++ [(k, v)]

/-- `event.content = v`: assignment on an object replaces the field;
assignment on a primitive silently no-ops (non-strict mode). -/
def jsAssignContent (ev : Json) (v : Json) : Json :=
  match ev with
  | .jobj fields => .jobj (objAssign fields "content" v)
  | other => other

/-- Validation error thrown for a malformed event. -/
def eventFormatError : String := "Each event must have \"role\" and \"content\""

/-- One iteration of the event validation/translation loop
(`src/index.ts` lines 150–155): require truthy `role` and `content`
(member access on a `null` event throws its own `TypeError`), then
rewrite `content` through the translator. -/
def translateEvent (tr : String → String) (ev : Json) : Except String Json :=
  match jsGet ev "role" with
  | .error msg => .error msg
  | .ok roleOpt =>
    if jsTruthy roleOpt then
      match jsGet ev "content" with
      | .error msg => .error msg
      | .ok none => .error eventFormatError
      | .ok (some c) =>
        if jsTruthy (some c) then .ok (jsAssignContent ev (translateJson tr c))
        else .error eventFormatError
    else .error eventFormatError

/-- `events.forEach(...)` with the first thrown error aborting the
loop. -/
def translateEvents (tr : String → String) : List Json → Except String (List Json)
  | [] => .ok []
  | ev :: rest =>
    match translateEvent tr ev with
    | .error msg => .error msg
    | .ok ev' =>
      match translateEvents tr rest with
      | .error msg => .error msg
      | .ok rest' => .ok (ev' :: rest')

/-- System-prompt resolution (`src/index.ts` lines 171–175): translate
the sentinel key (the `system-prompt` parameter when supplied, else
`"SYSTEM_PROMPT"`); use the translation when it differs from the
sentinel, else fall back to the configured `env.SYSTEM_PROMPT`. -/
def resolvedSystemPrompt (env : Env) (tr : String → String) (req : Request) : String :=
  let systemPromptParam := (req.searchParams "system-prompt").getD "SYSTEM_PROMPT"
  let translated := tr systemPromptParam
  if translated ≠ systemPromptParam then translated else env.SYSTEM_PROMPT

/-- The JSON payload posted to the gateway: model, the synthesized
system message followed by the translated events and the synthesized
user message, and the token bound. -/
def gatewayPayload (events : List Json) (prompt : Json) (systemPrompt : String) : Json :=
  .jobj [("model", .jstr "gpt-4o-mini"),
         ("messages", .jarr
           (.jobj [("role", .jstr "system"), ("content", .jstr systemPrompt)]
             :: events ++ [.jobj [("role", .jstr "user"), ("content", prompt)]])),
         ("max_tokens", .jnum 150)]

/-- The outbound gateway fetch: URL and auth material from the
environment, the serialized chat payload as body. -/
def gwRequest (env : Env) (events : List Json) (prompt : Json) (systemPrompt : String) :
    GatewayRequest :=
  ⟨env.AI_GATEWAY_URL, env.OPENAI_API_KEY, env.AI_GATEWAY_TOKEN,
    jsonStringify (gatewayPayload events prompt systemPrompt)⟩

/-- `data.choices[0]?.message?.content || "No response generated"`, the
truthiness fallback applied to the extracted completion. -/
def completionText (contentOpt : Option Json) : Json :=
  if jsTruthy contentOpt then contentOpt.getD (.jstr "No response generated")
  else .jstr "No response generated"

/-- `data.choices[0]?.message?.content` with JavaScript semantics:
missing `choices` (undefined) or a `null`/`undefined` base of the
unguarded accesses throws; the optional-chaining steps short-circuit a
nullish link to `undefined`. -/
def extractContent (data : Json) : Except String (Option Json) :=
  match jsGet data "choices" with
  | .error msg => .error msg
  | .ok choices =>
    match jsIndex0 choices with
    | .error msg => .error msg
    | .ok none => .ok none
    | .ok (some .null) => .ok none
    | .ok (some first) =>
      match jsGet first "message" with
      | .error msg => .error msg
      | .ok none => .ok none
      | .ok (some .null) => .ok none
      | .ok (some m) => jsGet m "content"

/-- The `try` block around the gateway call (`src/index.ts` lines
183–235): post the payload; a non-2xx answer propagates the upstream
status with an `AI Gateway error` body; a body-parse failure or a
`TypeError` while extracting the completion lands in the catch (500
`Failed to process request`); a falsy completion soft-degrades to
`"No response generated"`; the assembled 200 response is written through
to the cache before being returned, and a thrown `cache.put` also lands
in the catch. -/
def gatewayStage (w : World) (env : Env) (cache : Cache) (events : List Json)
    (prompt : Json) (systemPrompt : String) (key : String) (ops : List Op) :
    HttpResponse × Cache × List Op :=
  let gwReq := gwRequest env events prompt systemPrompt
  let gwResp := w.gateway gwReq
  let ops := ops ++ [.gatewayCall gwReq]
  if gwResp.status < 200 ∨ 300 ≤ gwResp.status then
    (⟨gwResp.status, errorBody ("AI Gateway error: " ++ toString gwResp.status)⟩, cache, ops)
  else
    match w.jsonParse gwResp.body with
    | .error msg => (⟨500, errorBody ("Failed to process request: " ++ msg)⟩, cache, ops)
    | .ok data =>
      match extractContent data with
      | .error msg => (⟨500, errorBody ("Failed to process request: " ++ msg)⟩, cache, ops)
      | .ok contentOpt =>
        let respBody := responseBody (completionText contentOpt)
        let ops := ops ++ [.cachePut key]
        match w.putError key with
        | some msg => (⟨500, errorBody ("Failed to process request: " ++ msg)⟩, cache, ops)
        | none => (⟨200, respBody⟩, cacheInsert cache key ⟨200, respBody⟩, ops)

/-- The worker's `fetch` entry point (`src/index.ts` lines 28–236),
returning the response, the updated module state, and the trace of
cache and gateway operations. -/
def fetchHandler (w : World) (env : Env) (st : HState) (req : Request) :
    HttpResponse × HState × List Op :=
  if req.method = "OPTIONS" then (⟨204, ""⟩, st, [])
  else if req.pathname = "/favicon.ico" then (⟨302, ""⟩, st, [])
  else
    match initTranslator w env st req with
    | .exit resp cache ops => (resp, ⟨st.translator, cache⟩, ops)
    | .ready tr cache ops =>
      let st' : HState := ⟨some tr, cache⟩
      if env.OPENAI_API_KEY = "" ∨ env.AI_GATEWAY_TOKEN = "" ∨ env.AI_GATEWAY_URL = "" then
        (⟨500, errorBody "Server configuration error"⟩, st', ops)
      else
        match
          (if req.method = "GET" then some (normalizeGet w req)
           else if req.method = "POST" then some (normalizePost req)
           else none) with
        | none => (⟨405, "Method Not Allowed"⟩, st', ops)
        | some (.reject resp) => (resp, st', ops)
        | some (.accept rawEvents rawPrompt) =>
          match translateEvents tr rawEvents with
          | .error msg => (⟨400, errorBody ("Invalid \"events\" format: " ++ msg)⟩, st', ops)
          | .ok events =>
            let prompt := translateJson tr rawPrompt
            let key := cacheKey req.origin events prompt
            let ops := ops ++ [.cacheMatch key]
            match st'.cache key with
            | some cached => (cached, st', ops)
            | none =>
              let systemPrompt := resolvedSystemPrompt env tr req
              if systemPrompt = "" then
                (⟨500, errorBody "System prompt not configured"⟩, st', ops)
              else
                let out := gatewayStage w env st'.cache events prompt systemPrompt key ops
                (out.1, ⟨some tr, out.2.1⟩, out.2.2)

/-- The gateway requests issued during a handled request, in order. -/
def gatewayCalls (ops : List Op) : List GatewayRequest :=
  ops.filterMap fun op =>
    match op with
    | .gatewayCall g => some g
    | _ => none

theorem gatewayCalls_append (xs ys : List Op) :
    gatewayCalls (xs ++ ys) = gatewayCalls xs ++ gatewayCalls ys := by
  simp [gatewayCalls]

/-- Every run of the gateway stage performs exactly one gateway call,
with the given payload. -/
theorem gatewayStage_calls (w : World) (env : Env) (cache : Cache) (events : List Json)
    (prompt : Json) (systemPrompt : String) (key : String) (ops : List Op) :
    gatewayCalls (gatewayStage w env cache events prompt systemPrompt key ops).2.2 =
      gatewayCalls ops ++ [gwRequest env events prompt systemPrompt] := by
  by_cases hbad : (w.gateway (gwRequest env events prompt systemPrompt)).status < 200 ∨
      300 ≤ (w.gateway (gwRequest env events prompt systemPrompt)).status
  · simp [gatewayStage, hbad, gatewayCalls_append, gatewayCalls]
  · rcases hparse : w.jsonParse (w.gateway (gwRequest env events prompt systemPrompt)).body
      with msg | data
    · simp [gatewayStage, hbad, hparse, gatewayCalls_append, gatewayCalls]
    · rcases hex : extractContent data with msg | co
      · simp [gatewayStage, hbad, hparse, hex, gatewayCalls_append, gatewayCalls]
      · rcases hput : w.putError key with _ | msg <;>
          simp [gatewayStage, hbad, hparse, hex, hput, gatewayCalls_append, gatewayCalls]

/-- A ready-translator GET request with a prompt, no events, no
clear-cache, and a configured environment that finds its key in the
response cache is answered with the cached entry and performs no gateway
call. -/
theorem fetchHandler_get_ready_hit (w : World) (env : Env) (st : HState) (req : Request)
    (tr : String → String) (p : String) (cached : HttpResponse)
    (hm : req.method = "GET") (hf : req.pathname ≠ "/favicon.ico")
    (htr : st.translator = some tr) (hcc : req.searchParams "clear-cache" = none)
    (hek : env.OPENAI_API_KEY ≠ "") (het : env.AI_GATEWAY_TOKEN ≠ "")
    (heu : env.AI_GATEWAY_URL ≠ "")
    (hpr : req.searchParams "prompt" = some p) (hpne : p ≠ "")
    (hev : req.searchParams "events" = none)
    (hhit : st.cache (cacheKey req.origin [] (.jstr (tr p))) = some cached) :
    fetchHandler w env st req =
      (cached, ⟨some tr, st.cache⟩,
        [.cacheMatch (cacheKey req.origin [] (.jstr (tr p)))]) := by
  simp [fetchHandler, initTranslator, clearCacheRequested, normalizeGet,
    translateEvents, translateJson, hm, hf, htr, hcc, hpr, hpne, hev, hek, het, heu, hhit]

/-- A ready-translator GET request with a prompt, no events, no
clear-cache, a configured environment, a response-cache miss, a
resolvable system prompt, a 2xx gateway answer whose body parses and
whose completion extraction does not throw, and a successful cache
write, is answered 200 with the completion text and the response is
written through under the cache key. -/
theorem fetchHandler_get_ready_success (w : World) (env : Env) (st : HState) (req : Request)
    (tr : String → String) (p : String) (d : Json) (co : Option Json)
    (hm : req.method = "GET") (hf : req.pathname ≠ "/favicon.ico")
    (htr : st.translator = some tr) (hcc : req.searchParams "clear-cache" = none)
    (hek : env.OPENAI_API_KEY ≠ "") (het : env.AI_GATEWAY_TOKEN ≠ "")
    (heu : env.AI_GATEWAY_URL ≠ "")
    (hpr : req.searchParams "prompt" = some p) (hpne : p ≠ "")
    (hev : req.searchParams "events" = none)
    (hmiss : st.cache (cacheKey req.origin [] (.jstr (tr p))) = none)
    (hsel : resolvedSystemPrompt env tr req ≠ "")
    (hok1 : 200 ≤ (w.gateway (gwRequest env [] (.jstr (tr p))
      (resolvedSystemPrompt env tr req))).status)
    (hok2 : (w.gateway (gwRequest env [] (.jstr (tr p))
      (resolvedSystemPrompt env tr req))).status < 300)
    (hparse : w.jsonParse (w.gateway (gwRequest env [] (.jstr (tr p))
      (resolvedSystemPrompt env tr req))).body = .ok d)
    (hex : extractContent d = .ok co)
    (hput : w.putError (cacheKey req.origin [] (.jstr (tr p))) = none) :
    fetchHandler w env st req =
      (⟨200, responseBody (completionText co)⟩,
       ⟨some tr, cacheInsert st.cache (cacheKey req.origin [] (.jstr (tr p)))
         ⟨200, responseBody (completionText co)⟩⟩,
       [.cacheMatch (cacheKey req.origin [] (.jstr (tr p))),
        .gatewayCall (gwRequest env [] (.jstr (tr p)) (resolvedSystemPrompt env tr req)),
        .cachePut (cacheKey req.origin [] (.jstr (tr p)))]) := by
  have hcond : ¬((w.gateway (gwRequest env [] (.jstr (tr p))
      (resolvedSystemPrompt env tr req))).status < 200 ∨
      300 ≤ (w.gateway (gwRequest env [] (.jstr (tr p))
        (resolvedSystemPrompt env tr req))).status) := by omega
  simp [fetchHandler, initTranslator, clearCacheRequested, normalizeGet,
    translateEvents, translateJson, gatewayStage, hm, hf, htr, hcc, hpr, hpne, hev,
    hek, het, heu, hmiss, hsel, hcond, hparse, hex, hput]

/-- A standard configured environment for concrete instantiations. -/
def envStd : Env :=
  ⟨"api-key", "You are helpful.", "gw-token", "https://gateway.example", "svc-key",
    "sheet-1", "main"⟩

/-- A ready handler state: identity translator, empty cache. -/
def stReady : HState := ⟨some (fun s => s), fun _ => none⟩

/-- A GET request with `prompt=hello` and no other parameters. -/
def reqHello : Request :=
  { method := "GET", pathname := "/", origin := "https://worker.example"
    searchParams := fun k => if k = "prompt" then some "hello" else none
    bodyJson := .error "no body" }

/-- C3: gateway error propagation — a request that reaches the gateway
and receives a non-2xx upstream response with status `S` is answered
with status exactly `S` and body `{error: "AI Gateway error: " ++ S}`. -/
theorem gateway_error_propagates_status (w : World) (env : Env) (st : HState)
    (req : Request) (tr : String → String) (p : String) (S : Nat)
    (hm : req.method = "GET") (hf : req.pathname ≠ "/favicon.ico")
    (htr : st.translator = some tr) (hcc : req.searchParams "clear-cache" = none)
    (hek : env.OPENAI_API_KEY ≠ "") (het : env.AI_GATEWAY_TOKEN ≠ "")
    (heu : env.AI_GATEWAY_URL ≠ "")
    (hpr : req.searchParams "prompt" = some p) (hpne : p ≠ "")
    (hev : req.searchParams "events" = none)
    (hmiss : st.cache (cacheKey req.origin [] (.jstr (tr p))) = none)
    (hsel : resolvedSystemPrompt env tr req ≠ "")
    (hS : (w.gateway (gwRequest env [] (.jstr (tr p))
      (resolvedSystemPrompt env tr req))).status = S)
    (hbad : S < 200 ∨ 300 ≤ S) :
    (fetchHandler w env st req).1 =
      ⟨S, errorBody ("AI Gateway error: " ++ toString S)⟩ := by
  simp [fetchHandler, initTranslator, clearCacheRequested, normalizeGet,
    translateEvents, translateJson, gatewayStage, hm, hf, htr, hcc, hpr, hpne, hev,
    hek, het, heu, hmiss, hsel, hS, hbad]

/-- World whose gateway answers 502. -/
def c3World : World :=
  { jsonParse := fun _ => .error "irrelevant"
    fetchTranslations := .error "offline"
    getTranslatorFromTranslations := fun _ => .ok (fun s => s)
    putError := fun _ => none
    gateway := fun _ => ⟨502, "upstream failure"⟩ }

/-- C3 witness: upstream 502 surfaces as HTTP 502 with the
`AI Gateway error: 502` body. -/
theorem gateway_error_propagates_status_witness :
    (fetchHandler c3World envStd stReady reqHello).1 =
      ⟨502, errorBody "AI Gateway error: 502"⟩ :=
  gateway_error_propagates_status c3World envStd stReady reqHello (fun s => s) "hello" 502
    rfl (by decide) rfl rfl (by decide) (by decide) (by decide) rfl (by decide) rfl rfl
    (by decide) rfl (by decide)

/-- C4: a GET or POST request (off the favicon path) with a non-empty
`clear-cache` parameter deletes the translation cache entry and the
voice-list entry, answers 200 `{response: "Cache cleared"}`, performs no
gateway call, and leaves every other cache entry (in particular all
response entries) untouched. -/
theorem clear_cache_short_circuit (w : World) (env : Env) (st : HState) (req : Request)
    (hm : req.method = "GET" ∨ req.method = "POST")
    (hf : req.pathname ≠ "/favicon.ico")
    (hcc : clearCacheRequested req = true) :
    fetchHandler w env st req =
      (⟨200, responseBody (.jstr "Cache cleared")⟩,
       ⟨st.translator,
        cacheRemove (cacheRemove st.cache (translationCacheKey req.origin env))
          (voiceListCacheKey req.origin)⟩,
       [.cacheDelete (translationCacheKey req.origin env),
        .cacheDelete (voiceListCacheKey req.origin)]) ∧
    (∀ k, k ≠ translationCacheKey req.origin env → k ≠ voiceListCacheKey req.origin →
      (fetchHandler w env st req).2.1.cache k = st.cache k) := by
  have hmo : req.method ≠ "OPTIONS" := by rcases hm with h | h <;> simp [h]
  have hmain : fetchHandler w env st req =
      (⟨200, responseBody (.jstr "Cache cleared")⟩,
       ⟨st.translator,
        cacheRemove (cacheRemove st.cache (translationCacheKey req.origin env))
          (voiceListCacheKey req.origin)⟩,
       [.cacheDelete (translationCacheKey req.origin env),
        .cacheDelete (voiceListCacheKey req.origin)]) := by
    rcases hst : st.translator with _ | tr <;>
      simp [fetchHandler, initTranslator, clearCacheExit, hcc, hf, hmo, hst]
  refine ⟨hmain, fun k hk1 hk2 => ?_⟩
  rw [hmain]
  simp [cacheRemove, hk1, hk2]

/-- GET request carrying `clear-cache=1` alongside a prompt. -/
def c4Req : Request :=
  { method := "GET", pathname := "/", origin := "https://worker.example"
    searchParams := fun k =>
      if k = "clear-cache" then some "1" else if k = "prompt" then some "hello" else none
    bodyJson := .error "no body" }

/-- A cached response entry under a response key, to observe that
clear-cache leaves it alone. -/
def c4Entry : HttpResponse := ⟨200, "cached"⟩

/-- State holding one response-cache entry. -/
def c4St : HState :=
  ⟨some (fun s => s),
   fun k => if k = "https://worker.example/response?hash=0&v=1.0.2" then some c4Entry else none⟩

/-- C4 witness: concrete clear-cache request — full short-circuit, and a
response entry survives. -/
theorem clear_cache_short_circuit_witness :
    fetchHandler c3World envStd c4St c4Req =
      (⟨200, responseBody (.jstr "Cache cleared")⟩,
       ⟨c4St.translator,
        cacheRemove (cacheRemove c4St.cache (translationCacheKey c4Req.origin envStd))
          (voiceListCacheKey c4Req.origin)⟩,
       [.cacheDelete (translationCacheKey c4Req.origin envStd),
        .cacheDelete (voiceListCacheKey c4Req.origin)]) ∧
    (fetchHandler c3World envStd c4St c4Req).2.1.cache
      "https://worker.example/response?hash=0&v=1.0.2" = some c4Entry := by
  have h := clear_cache_short_circuit c3World envStd c4St c4Req
    (Or.inl rfl) (by decide) rfl
  exact ⟨h.1, by rw [h.2 _ (by decide) (by decide)]; decide⟩

/-- Request with a verb outside GET/POST/OPTIONS and a `clear-cache`
parameter. -/
def c9Req : Request :=
  { method := "DELETE", pathname := "/", origin := "https://worker.example"
    searchParams := fun k => if k = "clear-cache" then some "1" else none
    bodyJson := .error "no body" }

/-- C9 counterexample: a DELETE request carrying `clear-cache=1` is
answered 200 `{response: "Cache cleared"}`, not 405 — the clear-cache
branch runs before the method check. -/
theorem method_restriction_counterexample :
    (fetchHandler c3World envStd stReady c9Req).1 =
      ⟨200, responseBody (.jstr "Cache cleared")⟩ ∧
    (fetchHandler c3World envStd stReady c9Req).1.status ≠ 405 := by
  constructor
  · rfl
  · decide

/-- C9 (amended): a request whose method is neither GET, POST nor
OPTIONS is answered 405 — provided it is not a favicon request, carries
no clear-cache parameter, the translator is ready, and the environment
is configured (each earlier branch would otherwise answer first);
OPTIONS requests are answered 204. -/
theorem method_restriction (w : World) (env : Env) (st : HState) (req : Request)
    (tr : String → String)
    (hm1 : req.method ≠ "GET") (hm2 : req.method ≠ "POST") (hm3 : req.method ≠ "OPTIONS")
    (hf : req.pathname ≠ "/favicon.ico")
    (hcc : clearCacheRequested req = false)
    (htr : st.translator = some tr)
    (hek : env.OPENAI_API_KEY ≠ "") (het : env.AI_GATEWAY_TOKEN ≠ "")
    (heu : env.AI_GATEWAY_URL ≠ "") :
    fetchHandler w env st req = (⟨405, "Method Not Allowed"⟩, ⟨some tr, st.cache⟩, []) ∧
    (∀ req2 : Request, req2.method = "OPTIONS" → (fetchHandler w env st req2).1 = ⟨204, ""⟩) := by
  constructor
  · simp [fetchHandler, initTranslator, hm1, hm2, hm3, hf, hcc, htr, hek, het, heu]
  · intro req2 h2
    simp [fetchHandler, h2]

/-- DELETE request without clear-cache. -/
def c9PlainReq : Request :=
  { method := "DELETE", pathname := "/", origin := "https://worker.example"
    searchParams := fun _ => none
    bodyJson := .error "no body" }

/-- OPTIONS request. -/
def c9OptionsReq : Request :=
  { method := "OPTIONS", pathname := "/", origin := "https://worker.example"
    searchParams := fun _ => none
    bodyJson := .error "no body" }

/-- C9 witness: a plain DELETE gets 405; an OPTIONS request gets 204. -/
theorem method_restriction_witness :
    fetchHandler c3World envStd stReady c9PlainReq =
      (⟨405, "Method Not Allowed"⟩, ⟨some (fun s => s), stReady.cache⟩, []) ∧
    (fetchHandler c3World envStd stReady c9OptionsReq).1 = ⟨204, ""⟩ := by
  have h := method_restriction c3World envStd stReady c9PlainReq (fun s => s)
    (by decide) (by decide) (by decide) (by decide) rfl rfl (by decide) (by decide) (by decide)
  exact ⟨h.1, h.2 c9OptionsReq rfl⟩

/-- A well-formed gateway completion body holding the text `Hi there`. -/
def gwGoodData : Json :=
  .jobj [("choices", .jarr [.jobj [("message", .jobj [("content", .jstr "Hi there")])]])]

/-- World where the gateway succeeds but every cache write throws. -/
def c5World : World :=
  { jsonParse := fun s => if s = "gwbody" then .ok gwGoodData else .error "bad json"
    fetchTranslations := .error "offline"
    getTranslatorFromTranslations := fun _ => .ok (fun s => s)
    putError := fun _ => some "QuotaExceededError"
    gateway := fun _ => ⟨200, "gwbody"⟩ }

/-- C5 counterexample: the gateway call succeeded and the 200 body was
assembled, yet the failing `cache.put` — awaited inside the `try` block
— turns the outcome into a 500 `Failed to process request` response
instead of the assembled 200. -/
theorem cache_write_failure_counterexample :
    (fetchHandler c5World envStd stReady reqHello).1 =
      ⟨500, errorBody "Failed to process request: QuotaExceededError"⟩ ∧
    (fetchHandler c5World envStd stReady reqHello).1.status ≠ 200 := by
  constructor
  · rfl
  · decide

/-- C5 (amended): when the gateway call succeeds and the 200 body is
assembled, a thrown response-cache write is caught by the surrounding
`try`/`catch` and the caller receives 500
`{error: "Failed to process request: <msg>"}` rather than the assembled
200 response. -/
theorem cache_write_failure_fails_request (w : World) (env : Env) (st : HState)
    (req : Request) (tr : String → String) (p : String) (d : Json) (co : Option Json)
    (msg : String)
    (hm : req.method = "GET") (hf : req.pathname ≠ "/favicon.ico")
    (htr : st.translator = some tr) (hcc : req.searchParams "clear-cache" = none)
    (hek : env.OPENAI_API_KEY ≠ "") (het : env.AI_GATEWAY_TOKEN ≠ "")
    (heu : env.AI_GATEWAY_URL ≠ "")
    (hpr : req.searchParams "prompt" = some p) (hpne : p ≠ "")
    (hev : req.searchParams "events" = none)
    (hmiss : st.cache (cacheKey req.origin [] (.jstr (tr p))) = none)
    (hsel : resolvedSystemPrompt env tr req ≠ "")
    (hok1 : 200 ≤ (w.gateway (gwRequest env [] (.jstr (tr p))
      (resolvedSystemPrompt env tr req))).status)
    (hok2 : (w.gateway (gwRequest env [] (.jstr (tr p))
      (resolvedSystemPrompt env tr req))).status < 300)
    (hparse : w.jsonParse (w.gateway (gwRequest env [] (.jstr (tr p))
      (resolvedSystemPrompt env tr req))).body = .ok d)
    (hex : extractContent d = .ok co)
    (hput : w.putError (cacheKey req.origin [] (.jstr (tr p))) = some msg) :
    (fetchHandler w env st req).1 =
      ⟨500, errorBody ("Failed to process request: " ++ msg)⟩ ∧
    (fetchHandler w env st req).2.1.cache (cacheKey req.origin [] (.jstr (tr p))) = none := by
  have hcond : ¬((w.gateway (gwRequest env [] (.jstr (tr p))
      (resolvedSystemPrompt env tr req))).status < 200 ∨
      300 ≤ (w.gateway (gwRequest env [] (.jstr (tr p))
        (resolvedSystemPrompt env tr req))).status) := by omega
  constructor <;>
    simp [fetchHandler, initTranslator, clearCacheRequested, normalizeGet,
      translateEvents, translateJson, gatewayStage, hm, hf, htr, hcc, hpr, hpne, hev,
      hek, het, heu, hmiss, hsel, hcond, hparse, hex, hput]

/-- C5 witness: the amended behavior at the concrete failing-write
world. -/
theorem cache_write_failure_fails_request_witness :
    (fetchHandler c5World envStd stReady reqHello).1 =
      ⟨500, errorBody "Failed to process request: QuotaExceededError"⟩ ∧
    (fetchHandler c5World envStd stReady reqHello).2.1.cache
      (cacheKey reqHello.origin [] (.jstr "hello")) = none :=
  cache_write_failure_fails_request c5World envStd stReady reqHello (fun s => s) "hello"
    gwGoodData (some (.jstr "Hi there")) "QuotaExceededError"
    rfl (by decide) rfl rfl (by decide) (by decide) (by decide) rfl (by decide) rfl rfl
    (by decide) (by decide) (by decide) rfl rfl rfl

/-- World whose gateway answers 2xx with a body that does not parse as
JSON. -/
def c7World : World :=
  { jsonParse := fun _ => .error "Unexpected token"
    fetchTranslations := .error "offline"
    getTranslatorFromTranslations := fun _ => .ok (fun s => s)
    putError := fun _ => none
    gateway := fun _ => ⟨200, "oops not json"⟩ }

/-- C7 counterexample: a 2xx gateway response whose body is unparseable
does not soft-degrade to 200 `{response: "No response generated"}` —
the thrown parse error reaches the catch-all and the handler answers
500. -/
theorem empty_completion_counterexample :
    (fetchHandler c7World envStd stReady reqHello).1 =
      ⟨500, errorBody "Failed to process request: Unexpected token"⟩ ∧
    (fetchHandler c7World envStd stReady reqHello).1.status ≠ 200 := by
  constructor
  · rfl
  · decide

/-- C7 (amended): when the 2xx gateway body parses as JSON and the
extraction `choices[0]?.message?.content` evaluates without throwing to
a falsy (empty or missing) completion, the handler answers 200
`{response: "No response generated"}`; an unparseable body or a thrown
extraction instead yields the 500 catch-all. -/
theorem empty_completion_soft_degrade (w : World) (env : Env) (st : HState)
    (req : Request) (tr : String → String) (p : String) (d : Json) (co : Option Json)
    (hm : req.method = "GET") (hf : req.pathname ≠ "/favicon.ico")
    (htr : st.translator = some tr) (hcc : req.searchParams "clear-cache" = none)
    (hek : env.OPENAI_API_KEY ≠ "") (het : env.AI_GATEWAY_TOKEN ≠ "")
    (heu : env.AI_GATEWAY_URL ≠ "")
    (hpr : req.searchParams "prompt" = some p) (hpne : p ≠ "")
    (hev : req.searchParams "events" = none)
    (hmiss : st.cache (cacheKey req.origin [] (.jstr (tr p))) = none)
    (hsel : resolvedSystemPrompt env tr req ≠ "")
    (hok1 : 200 ≤ (w.gateway (gwRequest env [] (.jstr (tr p))
      (resolvedSystemPrompt env tr req))).status)
    (hok2 : (w.gateway (gwRequest env [] (.jstr (tr p))
      (resolvedSystemPrompt env tr req))).status < 300)
    (hparse : w.jsonParse (w.gateway (gwRequest env [] (.jstr (tr p))
      (resolvedSystemPrompt env tr req))).body = .ok d)
    (hex : extractContent d = .ok co)
    (hfalsy : jsTruthy co = false)
    (hput : w.putError (cacheKey req.origin [] (.jstr (tr p))) = none) :
    (fetchHandler w env st req).1 =
      ⟨200, responseBody (.jstr "No response generated")⟩ := by
  have h := fetchHandler_get_ready_success w env st req tr p d co
    hm hf htr hcc hek het heu hpr hpne hev hmiss hsel hok1 hok2 hparse hex hput
  rw [h]
  simp [completionText, hfalsy]

/-- World whose gateway answers 2xx with an empty `choices` array. -/
def c7EmptyWorld : World :=
  { jsonParse := fun s =>
      if s = "gwbody" then .ok (.jobj [("choices", .jarr [])]) else .error "bad json"
    fetchTranslations := .error "offline"
    getTranslatorFromTranslations := fun _ => .ok (fun s => s)
    putError := fun _ => none
    gateway := fun _ => ⟨200, "gwbody"⟩ }

/-- C7 witness: an empty `choices` array soft-degrades to the
placeholder text at 200. -/
theorem empty_completion_soft_degrade_witness :
    (fetchHandler c7EmptyWorld envStd stReady reqHello).1 =
      ⟨200, responseBody (.jstr "No response generated")⟩ :=
  empty_completion_soft_degrade c7EmptyWorld envStd stReady reqHello (fun s => s) "hello"
    (.jobj [("choices", .jarr [])]) none
    rfl (by decide) rfl rfl (by decide) (by decide) (by decide) rfl (by decide) rfl rfl
    (by decide) (by decide) (by decide) rfl rfl rfl rfl

/-- Whenever translator initialization hands back a ready translator,
the operations it performed touch only the translation cache entry
(a read, possibly followed by a write-through). -/
theorem initTranslator_ready_ops (w : World) (env : Env) (st : HState) (req : Request)
    (tr : String → String) (cache' : Cache) (ops0 : List Op)
    (h : initTranslator w env st req = .ready tr cache' ops0) :
    ∀ op ∈ ops0, op = .cacheMatch (translationCacheKey req.origin env) ∨
      op = .cachePut (translationCacheKey req.origin env) := by
  intro op hop
  unfold initTranslator at h
  rcases hst : st.translator with _ | tr0
  · simp only [hst] at h
    by_cases hcc : clearCacheRequested req = true
    · simp [hcc, clearCacheExit] at h
    · simp only [hcc, if_false, Bool.false_eq_true] at h
      unfold initFresh at h
      rcases hc : st.cache (translationCacheKey req.origin env) with _ | resp <;>
        simp only [hc] at h
      · rcases hft : w.fetchTranslations with msg | translations <;>
          simp only [hft] at h
        · simp at h
        · rcases hpe : w.putError (translationCacheKey req.origin env) with _ | msg <;>
            simp only [hpe] at h
          · unfold buildTranslator at h
            rcases hgt : w.getTranslatorFromTranslations
                (jsGetOpt translations env.SHEET_NAME) with msg | tr1 <;>
              simp only [hgt] at h
            · simp at h
            · have hops : ops0 = [.cacheMatch (translationCacheKey req.origin env),
                  .cachePut (translationCacheKey req.origin env)] := by
                cases h
                rfl
              subst hops
              simp only [List.mem_cons, List.mem_singleton, List.not_mem_nil,
                or_false] at hop
              rcases hop with h1 | h1 <;> simp [h1]
          · simp at h
      · rcases hjp : w.jsonParse resp.body with msg | translations <;>
          simp only [hjp] at h
        · simp at h
        · unfold buildTranslator at h
          rcases hgt : w.getTranslatorFromTranslations
              (jsGetOpt translations env.SHEET_NAME) with msg | tr1 <;>
            simp only [hgt] at h
          · simp at h
          · have hops : ops0 = [.cacheMatch (translationCacheKey req.origin env)] := by
              cases h
              rfl
            subst hops
            simp only [List.mem_singleton] at hop
            simp [hop]
  · simp only [hst] at h
    by_cases hcc : clearCacheRequested req = true
    · simp [hcc, clearCacheExit] at h
    · simp only [hcc, if_false, Bool.false_eq_true] at h
      have hops : ops0 = [] := by
        cases h
        rfl
      subst hops
      simp at hop

/-- A trace consisting only of translation-cache reads and writes
contains no gateway call. -/
theorem gatewayCalls_nil_of_cacheOnly (k : String) : ∀ ops : List Op,
    (∀ op ∈ ops, op = .cacheMatch k ∨ op = .cachePut k) → gatewayCalls ops = [] := by
  intro ops
  induction ops with
  | nil => intro _; rfl
  | cons a as ih =>
    intro h
    rcases h a (List.mem_cons_self a as) with h1 | h1 <;> subst h1 <;>
      simpa [gatewayCalls] using ih fun op hop => h op (List.mem_cons_of_mem _ hop)

/-- World for observing translator initialization from the cached
translation entry. -/
def c6World : World :=
  { jsonParse := fun s => if s = "tdata" then .ok (.jobj [("main", .jobj [])]) else .error "bad json"
    fetchTranslations := .error "offline"
    getTranslatorFromTranslations := fun _ => .ok (fun s => s)
    putError := fun _ => none
    gateway := fun _ => ⟨200, "gwbody"⟩ }

/-- Uninitialized-translator state whose cache holds the translation
entry. -/
def c6St : HState :=
  ⟨none,
   fun k => if k = translationCacheKey "https://worker.example" envStd
     then some ⟨200, "tdata"⟩ else none⟩

/-- GET request with no parameters at all. -/
def c6Req : Request :=
  { method := "GET", pathname := "/", origin := "https://worker.example"
    searchParams := fun _ => none
    bodyJson := .error "no body" }

/-- C6 counterexample: a GET request with no prompt is answered 400, but
a cache operation does occur during its handling — the translator
initialization reads the translation cache entry before prompt
validation. -/
theorem missing_prompt_counterexample :
    (fetchHandler c6World envStd c6St c6Req).1.status = 400 ∧
    (fetchHandler c6World envStd c6St c6Req).2.2 =
      [.cacheMatch (translationCacheKey "https://worker.example" envStd)] := by
  exact ⟨rfl, rfl⟩

/-- C6 (amended): a GET request with neither `prompt` nor `finalPrompt`,
on a configured environment and with translator initialization
succeeding, is answered exactly 400 with a JSON error object; no gateway
call occurs and no response-cache operation occurs — the only cache
operations possible during such a request are the translation-cache
read/write of translator initialization. -/
theorem missing_prompt_rejected (w : World) (env : Env) (st : HState) (req : Request)
    (tr : String → String) (cache' : Cache) (ops0 : List Op)
    (hm : req.method = "GET") (hf : req.pathname ≠ "/favicon.ico")
    (hek : env.OPENAI_API_KEY ≠ "") (het : env.AI_GATEWAY_TOKEN ≠ "")
    (heu : env.AI_GATEWAY_URL ≠ "")
    (hpr : req.searchParams "prompt" = none) (hfp : req.searchParams "finalPrompt" = none)
    (hinit : initTranslator w env st req = .ready tr cache' ops0) :
    fetchHandler w env st req =
      (⟨400, errorBody "Missing \"prompt\" query parameter"⟩, ⟨some tr, cache'⟩, ops0) ∧
    gatewayCalls ops0 = [] ∧
    (∀ op ∈ ops0, op = .cacheMatch (translationCacheKey req.origin env) ∨
      op = .cachePut (translationCacheKey req.origin env)) := by
  have hops := initTranslator_ready_ops w env st req tr cache' ops0 hinit
  refine ⟨?_, gatewayCalls_nil_of_cacheOnly _ _ hops, hops⟩
  simp [fetchHandler, hm, hf, hinit, hek, het, heu, normalizeGet, hpr, hfp]

/-- C6 witness: at the concrete uninitialized state the 400 is produced
with exactly the translation-cache read in the trace. -/
theorem missing_prompt_rejected_witness :
    fetchHandler c6World envStd c6St c6Req =
      (⟨400, errorBody "Missing \"prompt\" query parameter"⟩,
       ⟨some (fun s => s), c6St.cache⟩,
       [.cacheMatch (translationCacheKey "https://worker.example" envStd)]) ∧
    gatewayCalls [Op.cacheMatch (translationCacheKey "https://worker.example" envStd)] = [] := by
  have h := missing_prompt_rejected c6World envStd c6St c6Req (fun s => s) c6St.cache
    [.cacheMatch (translationCacheKey "https://worker.example" envStd)]
    rfl (by decide) (by decide) (by decide) (by decide) rfl rfl rfl
  exact ⟨h.1, h.2.1⟩

/-- POST normalization of the legacy worker variant (`finalPrompt`
body field): parse the JSON body, take `events = body.events || []` and
`finalPrompt = body.finalPrompt`; reject a falsy `finalPrompt` (400,
checked before the array check), then reject non-array events. -/
def legacyNormalizePost (req : Request) : NormResult :=
  match req.bodyJson with
  | .error msg => .reject ⟨400, errorBody ("Invalid JSON body: " ++ msg)⟩
  | .ok body =>
    match jsGet body "events" with
    | .error msg => .reject ⟨400, errorBody ("Invalid JSON body: " ++ msg)⟩
    | .ok evOpt =>
      let events : Json :=
        match evOpt with
        | some v => if jsTruthy (some v) then v else .jarr []
        | none => .jarr []
      match jsGet body "finalPrompt" with
      | .error msg => .reject ⟨400, errorBody ("Invalid JSON body: " ++ msg)⟩
      | .ok none => .reject ⟨400, errorBody "Missing \"finalPrompt\" in body"⟩
      | .ok (some p) =>
        if jsTruthy (some p) then
          match events with
          | .jarr xs => .accept xs p
          | _ => .reject ⟨400, errorBody "Events must be an array"⟩
        else .reject ⟨400, errorBody "Missing \"finalPrompt\" in body"⟩

/-- POST request whose body carries only the legacy `finalPrompt`
field. -/
def c8Req : Request :=
  { method := "POST", pathname := "/", origin := "https://worker.example"
    searchParams := fun _ => none
    bodyJson := .ok (.jobj [("finalPrompt", .jstr "hello")]) }

/-- C8 counterexample: the current handler's POST parsing reads only
`body.prompt`, so a body supplying the prompt under the legacy
`finalPrompt` field is rejected with the 400 missing-prompt error. -/
theorem legacy_post_prompt_counterexample :
    (fetchHandler c3World envStd stReady c8Req).1 =
      ⟨400, errorBody "Missing \"prompt\" in body"⟩ ∧
    (fetchHandler c3World envStd stReady c8Req).1.status = 400 := by
  exact ⟨rfl, rfl⟩

/-- C8 (amended): only the legacy worker variant accepts the prompt
from a POST body's `finalPrompt` field; the current handler's POST
parsing requires `prompt` and answers 400 missing-prompt when only
`finalPrompt` is supplied. -/
theorem legacy_post_prompt_field (req : Request) (fields : List (String × Json)) (p : String)
    (hb : req.bodyJson = .ok (.jobj fields))
    (hfp : objLookup "finalPrompt" fields = some (.jstr p)) (hp : p ≠ "")
    (hpr : objLookup "prompt" fields = none)
    (hev : objLookup "events" fields = none) :
    normalizePost req = .reject ⟨400, errorBody "Missing \"prompt\" in body"⟩ ∧
    legacyNormalizePost req = .accept [] (.jstr p) := by
  constructor <;>
    simp [normalizePost, legacyNormalizePost, jsGet, hb, hfp, hpr, hev, jsTruthy, hp]

/-- C8 witness: the concrete `{finalPrompt: "hello"}` body. -/
theorem legacy_post_prompt_field_witness :
    normalizePost c8Req = .reject ⟨400, errorBody "Missing \"prompt\" in body"⟩ ∧
    legacyNormalizePost c8Req = .accept [] (.jstr "hello") :=
  legacy_post_prompt_field c8Req [("finalPrompt", .jstr "hello")] "hello"
    rfl rfl (by decide) rfl rfl

/-- A ready-translator GET request with a prompt, no events, no
clear-cache, a configured environment, a response-cache miss and a
resolvable system prompt hands control to the gateway stage. -/
theorem fetchHandler_get_ready_miss (w : World) (env : Env) (st : HState) (req : Request)
    (tr : String → String) (p : String)
    (hm : req.method = "GET") (hf : req.pathname ≠ "/favicon.ico")
    (htr : st.translator = some tr) (hcc : req.searchParams "clear-cache" = none)
    (hek : env.OPENAI_API_KEY ≠ "") (het : env.AI_GATEWAY_TOKEN ≠ "")
    (heu : env.AI_GATEWAY_URL ≠ "")
    (hpr : req.searchParams "prompt" = some p) (hpne : p ≠ "")
    (hev : req.searchParams "events" = none)
    (hmiss : st.cache (cacheKey req.origin [] (.jstr (tr p))) = none)
    (hsel : resolvedSystemPrompt env tr req ≠ "") :
    fetchHandler w env st req =
      ((gatewayStage w env st.cache [] (.jstr (tr p)) (resolvedSystemPrompt env tr req)
          (cacheKey req.origin [] (.jstr (tr p)))
          [.cacheMatch (cacheKey req.origin [] (.jstr (tr p)))]).1,
       ⟨some tr, (gatewayStage w env st.cache [] (.jstr (tr p))
          (resolvedSystemPrompt env tr req) (cacheKey req.origin [] (.jstr (tr p)))
          [.cacheMatch (cacheKey req.origin [] (.jstr (tr p)))]).2.1⟩,
       (gatewayStage w env st.cache [] (.jstr (tr p)) (resolvedSystemPrompt env tr req)
          (cacheKey req.origin [] (.jstr (tr p)))
          [.cacheMatch (cacheKey req.origin [] (.jstr (tr p)))]).2.2) := by
  simp [fetchHandler, initTranslator, clearCacheRequested, normalizeGet,
    translateEvents, translateJson, hm, hf, htr, hcc, hpr, hpne, hev, hek, het, heu,
    hmiss, hsel]

/-- C1: system-prompt resolution — for a valid request missing the
response cache, the resolved system prompt (the translated sentinel key
when the translation differs from the key, otherwise the configured
`env.SYSTEM_PROMPT`) is sent as the first gateway message
`{role: "system", content: <value>}`; when the resolved value is empty
the handler answers 500 `System prompt not configured` and never calls
the gateway.  The sentinel key is the `system-prompt` parameter when
supplied, `"SYSTEM_PROMPT"` otherwise. -/
theorem system_prompt_resolution (w : World) (env : Env) (st : HState) (req : Request)
    (tr : String → String) (p : String)
    (hm : req.method = "GET") (hf : req.pathname ≠ "/favicon.ico")
    (htr : st.translator = some tr) (hcc : req.searchParams "clear-cache" = none)
    (hek : env.OPENAI_API_KEY ≠ "") (het : env.AI_GATEWAY_TOKEN ≠ "")
    (heu : env.AI_GATEWAY_URL ≠ "")
    (hpr : req.searchParams "prompt" = some p) (hpne : p ≠ "")
    (hev : req.searchParams "events" = none)
    (hmiss : st.cache (cacheKey req.origin [] (.jstr (tr p))) = none) :
    (resolvedSystemPrompt env tr req ≠ "" →
      gatewayCalls (fetchHandler w env st req).2.2 =
        [⟨env.AI_GATEWAY_URL, env.OPENAI_API_KEY, env.AI_GATEWAY_TOKEN,
          jsonStringify (.jobj [("model", .jstr "gpt-4o-mini"),
            ("messages", .jarr
              [.jobj [("role", .jstr "system"),
                      ("content", .jstr (resolvedSystemPrompt env tr req))],
               .jobj [("role", .jstr "user"), ("content", .jstr (tr p))]]),
            ("max_tokens", .jnum 150)])⟩]) ∧
    (resolvedSystemPrompt env tr req = "" →
      (fetchHandler w env st req).1 = ⟨500, errorBody "System prompt not configured"⟩ ∧
      gatewayCalls (fetchHandler w env st req).2.2 = []) ∧
    (∀ sp, req.searchParams "system-prompt" = some sp → tr sp ≠ sp →
      resolvedSystemPrompt env tr req = tr sp) ∧
    (∀ sp, req.searchParams "system-prompt" = some sp → tr sp = sp →
      resolvedSystemPrompt env tr req = env.SYSTEM_PROMPT) ∧
    (req.searchParams "system-prompt" = none →
      resolvedSystemPrompt env tr req =
        if tr "SYSTEM_PROMPT" = "SYSTEM_PROMPT" then env.SYSTEM_PROMPT
        else tr "SYSTEM_PROMPT") := by
  refine ⟨?_, ?_, ?_, ?_, ?_⟩
  · intro hsel
    rw [fetchHandler_get_ready_miss w env st req tr p
      hm hf htr hcc hek het heu hpr hpne hev hmiss hsel]
    rw [gatewayStage_calls]
    simp [gatewayCalls, gwRequest, gatewayPayload]
  · intro hsel
    constructor <;>
      simp [fetchHandler, initTranslator, clearCacheRequested, normalizeGet,
        translateEvents, translateJson, gatewayCalls, hm, hf, htr, hcc, hpr, hpne, hev,
        hek, het, heu, hmiss, hsel]
  · intro sp hsp hne
    simp [resolvedSystemPrompt, hsp, hne]
  · intro sp hsp heq
    simp [resolvedSystemPrompt, hsp, heq]
  · intro hsp
    by_cases h : tr "SYSTEM_PROMPT" = "SYSTEM_PROMPT" <;>
      simp [resolvedSystemPrompt, hsp, h]

/-- The spec's example translator: maps `"SYSTEM_PROMPT"` to
`"You are a pirate."`, identity elsewhere. -/
def trPirate : String → String :=
  fun s => if s = "SYSTEM_PROMPT" then "You are a pirate." else s

/-- Ready state with the pirate translator and an empty cache. -/
def c1St : HState := ⟨some trPirate, fun _ => none⟩

/-- C1 witness: with the pirate translator, the single gateway call's
first message carries `You are a pirate.`, not the configured
fallback. -/
theorem system_prompt_resolution_witness :
    gatewayCalls (fetchHandler c3World envStd c1St reqHello).2.2 =
      [⟨"https://gateway.example", "api-key", "gw-token",
        jsonStringify (.jobj [("model", .jstr "gpt-4o-mini"),
          ("messages", .jarr
            [.jobj [("role", .jstr "system"), ("content", .jstr "You are a pirate.")],
             .jobj [("role", .jstr "user"), ("content", .jstr "hello")]]),
          ("max_tokens", .jnum 150)])⟩] :=
  (system_prompt_resolution c3World envStd c1St reqHello trPirate "hello"
    rfl (by decide) rfl rfl (by decide) (by decide) (by decide) rfl (by decide) rfl rfl).1
    (by decide)

/-- C2: cache-key construction — the response cache key recorded for a
valid request is exactly
`origin ++ "/response?hash=" ++ simpleHash (JSON of (events, prompt)) ++ "&v=" ++ VERSION`
over the translated events and prompt; the builder is deterministic
(identical translated inputs and origin give character-for-character
identical keys); and after a successful first request, a second request
with identical translated inputs is served the cached response without
a gateway call. -/
theorem cache_key_determinism_and_hit (w : World) (env : Env) (st : HState)
    (req1 req2 : Request) (tr : String → String) (p1 p2 : String) (d : Json)
    (co : Option Json)
    (h1m : req1.method = "GET") (h1f : req1.pathname ≠ "/favicon.ico")
    (htr : st.translator = some tr) (h1cc : req1.searchParams "clear-cache" = none)
    (hek : env.OPENAI_API_KEY ≠ "") (het : env.AI_GATEWAY_TOKEN ≠ "")
    (heu : env.AI_GATEWAY_URL ≠ "")
    (h1pr : req1.searchParams "prompt" = some p1) (h1pne : p1 ≠ "")
    (h1ev : req1.searchParams "events" = none)
    (hmiss : st.cache (cacheKey req1.origin [] (.jstr (tr p1))) = none)
    (hsel : resolvedSystemPrompt env tr req1 ≠ "")
    (hok1 : 200 ≤ (w.gateway (gwRequest env [] (.jstr (tr p1))
      (resolvedSystemPrompt env tr req1))).status)
    (hok2 : (w.gateway (gwRequest env [] (.jstr (tr p1))
      (resolvedSystemPrompt env tr req1))).status < 300)
    (hparse : w.jsonParse (w.gateway (gwRequest env [] (.jstr (tr p1))
      (resolvedSystemPrompt env tr req1))).body = .ok d)
    (hex : extractContent d = .ok co)
    (hput : w.putError (cacheKey req1.origin [] (.jstr (tr p1))) = none)
    (h2m : req2.method = "GET") (h2f : req2.pathname ≠ "/favicon.ico")
    (h2cc : req2.searchParams "clear-cache" = none)
    (h2pr : req2.searchParams "prompt" = some p2) (h2pne : p2 ≠ "")
    (h2ev : req2.searchParams "events" = none)
    (horigin : req2.origin = req1.origin) (htp : tr p2 = tr p1) :
    (fetchHandler w env st req1).2.2.head? = some (.cacheMatch
      (req1.origin ++ "/response?hash=" ++
        simpleHash (jsonStringify (.jobj [("events", .jarr []), ("prompt", .jstr (tr p1))])) ++
        "&v=" ++ VERSION)) ∧
    cacheKey req2.origin [] (.jstr (tr p2)) = cacheKey req1.origin [] (.jstr (tr p1)) ∧
    (fetchHandler w env (fetchHandler w env st req1).2.1 req2).1 =
      (fetchHandler w env st req1).1 ∧
    gatewayCalls (fetchHandler w env (fetchHandler w env st req1).2.1 req2).2.2 = [] := by
  have hrun1 := fetchHandler_get_ready_success w env st req1 tr p1 d co
    h1m h1f htr h1cc hek het heu h1pr h1pne h1ev hmiss hsel hok1 hok2 hparse hex hput
  have hkey : cacheKey req2.origin [] (.jstr (tr p2)) =
      cacheKey req1.origin [] (.jstr (tr p1)) := by rw [horigin, htp]
  have hhit : (cacheInsert st.cache (cacheKey req1.origin [] (.jstr (tr p1)))
      ⟨200, responseBody (completionText co)⟩) (cacheKey req2.origin [] (.jstr (tr p2))) =
      some ⟨200, responseBody (completionText co)⟩ := by
    rw [hkey]
    simp [cacheInsert]
  have hrun2 := fetchHandler_get_ready_hit w env
    ⟨some tr, cacheInsert st.cache (cacheKey req1.origin [] (.jstr (tr p1)))
      ⟨200, responseBody (completionText co)⟩⟩ req2 tr p2
    ⟨200, responseBody (completionText co)⟩
    h2m h2f rfl h2cc hek het heu h2pr h2pne h2ev hhit
  refine ⟨?_, hkey, ?_, ?_⟩
  · rw [hrun1]
    simp [cacheKey]
  · rw [hrun1]
    rw [hrun2]
  · rw [hrun1]
    rw [hrun2]
    simp [gatewayCalls]

/-- World for the round-trip witnesses: gateway succeeds with a proper
completion. -/
def c2World : World :=
  { jsonParse := fun s => if s = "gwbody" then .ok gwGoodData else .error "bad json"
    fetchTranslations := .error "offline"
    getTranslatorFromTranslations := fun _ => .ok (fun s => s)
    putError := fun _ => none
    gateway := fun _ => ⟨200, "gwbody"⟩ }

/-- C2 witness: a concrete successful request followed by an identical
request — the second is served the same response with no gateway
call. -/
theorem cache_key_determinism_and_hit_witness :
    (fetchHandler c2World envStd stReady reqHello).2.2.head? = some (.cacheMatch
      ("https://worker.example" ++ "/response?hash=" ++
        simpleHash (jsonStringify
          (.jobj [("events", .jarr []), ("prompt", .jstr "hello")])) ++
        "&v=" ++ VERSION)) ∧
    cacheKey "https://worker.example" [] (.jstr "hello") =
      cacheKey "https://worker.example" [] (.jstr "hello") ∧
    (fetchHandler c2World envStd (fetchHandler c2World envStd stReady reqHello).2.1
      reqHello).1 = (fetchHandler c2World envStd stReady reqHello).1 ∧
    gatewayCalls (fetchHandler c2World envStd
      (fetchHandler c2World envStd stReady reqHello).2.1 reqHello).2.2 = [] :=
  cache_key_determinism_and_hit c2World envStd stReady reqHello reqHello (fun s => s)
    "hello" "hello" gwGoodData (some (.jstr "Hi there"))
    rfl (by decide) rfl rfl (by decide) (by decide) (by decide) rfl (by decide) rfl rfl
    (by decide) (by decide) (by decide) rfl rfl rfl
    rfl (by decide) rfl rfl (by decide) rfl rfl rfl

/-- C10: cache-key noninterference with the system prompt — two valid
requests with the same origin and identical translated inputs but
different `system-prompt` parameters compute the identical response
cache key, so a response cached under one system prompt is served
unchanged to a request naming a different one, with no gateway call. -/
theorem cache_key_ignores_system_prompt (w : World) (env : Env) (st : HState)
    (req1 req2 : Request) (tr : String → String) (p1 p2 : String) (d : Json)
    (co : Option Json) (s1 s2 : Option String)
    (h1m : req1.method = "GET") (h1f : req1.pathname ≠ "/favicon.ico")
    (htr : st.translator = some tr) (h1cc : req1.searchParams "clear-cache" = none)
    (hek : env.OPENAI_API_KEY ≠ "") (het : env.AI_GATEWAY_TOKEN ≠ "")
    (heu : env.AI_GATEWAY_URL ≠ "")
    (h1pr : req1.searchParams "prompt" = some p1) (h1pne : p1 ≠ "")
    (h1ev : req1.searchParams "events" = none)
    (hsp1 : req1.searchParams "system-prompt" = s1)
    (hsp2 : req2.searchParams "system-prompt" = s2)
    (hdiff : s1 ≠ s2)
    (hmiss : st.cache (cacheKey req1.origin [] (.jstr (tr p1))) = none)
    (hsel : resolvedSystemPrompt env tr req1 ≠ "")
    (hok1 : 200 ≤ (w.gateway (gwRequest env [] (.jstr (tr p1))
      (resolvedSystemPrompt env tr req1))).status)
    (hok2 : (w.gateway (gwRequest env [] (.jstr (tr p1))
      (resolvedSystemPrompt env tr req1))).status < 300)
    (hparse : w.jsonParse (w.gateway (gwRequest env [] (.jstr (tr p1))
      (resolvedSystemPrompt env tr req1))).body = .ok d)
    (hex : extractContent d = .ok co)
    (hput : w.putError (cacheKey req1.origin [] (.jstr (tr p1))) = none)
    (h2m : req2.method = "GET") (h2f : req2.pathname ≠ "/favicon.ico")
    (h2cc : req2.searchParams "clear-cache" = none)
    (h2pr : req2.searchParams "prompt" = some p2) (h2pne : p2 ≠ "")
    (h2ev : req2.searchParams "events" = none)
    (horigin : req2.origin = req1.origin) (htp : tr p2 = tr p1) :
    cacheKey req2.origin [] (.jstr (tr p2)) = cacheKey req1.origin [] (.jstr (tr p1)) ∧
    (fetchHandler w env (fetchHandler w env st req1).2.1 req2).1 =
      (fetchHandler w env st req1).1 ∧
    gatewayCalls (fetchHandler w env (fetchHandler w env st req1).2.1 req2).2.2 = [] := by
  have hrun1 := fetchHandler_get_ready_success w env st req1 tr p1 d co
    h1m h1f htr h1cc hek het heu h1pr h1pne h1ev hmiss hsel hok1 hok2 hparse hex hput
  have hkey : cacheKey req2.origin [] (.jstr (tr p2)) =
      cacheKey req1.origin [] (.jstr (tr p1)) := by rw [horigin, htp]
  have hhit : (cacheInsert st.cache (cacheKey req1.origin [] (.jstr (tr p1)))
      ⟨200, responseBody (completionText co)⟩) (cacheKey req2.origin [] (.jstr (tr p2))) =
      some ⟨200, responseBody (completionText co)⟩ := by
    rw [hkey]
    simp [cacheInsert]
  have hrun2 := fetchHandler_get_ready_hit w env
    ⟨some tr, cacheInsert st.cache (cacheKey req1.origin [] (.jstr (tr p1)))
      ⟨200, responseBody (completionText co)⟩⟩ req2 tr p2
    ⟨200, responseBody (completionText co)⟩
    h2m h2f rfl h2cc hek het heu h2pr h2pne h2ev hhit
  refine ⟨hkey, ?_, ?_⟩
  · rw [hrun1]
    rw [hrun2]
  · rw [hrun1]
    rw [hrun2]
    simp [gatewayCalls]

/-- Request identical to `reqHello` except for `system-prompt=A`. -/
def c10ReqA : Request :=
  { method := "GET", pathname := "/", origin := "https://worker.example"
    searchParams := fun k =>
      if k = "prompt" then some "hello"
      else if k = "system-prompt" then some "A" else none
    bodyJson := .error "no body" }

/-- Request identical to `reqHello` except for `system-prompt=B`. -/
def c10ReqB : Request :=
  { method := "GET", pathname := "/", origin := "https://worker.example"
    searchParams := fun k =>
      if k = "prompt" then some "hello"
      else if k = "system-prompt" then some "B" else none
    bodyJson := .error "no body" }

/-- C10 witness: a response generated under `system-prompt=A` is served
from the cache to a request naming `system-prompt=B`, without a gateway
call. -/
theorem cache_key_ignores_system_prompt_witness :
    cacheKey "https://worker.example" [] (.jstr "hello") =
      cacheKey "https://worker.example" [] (.jstr "hello") ∧
    (fetchHandler c2World envStd (fetchHandler c2World envStd stReady c10ReqA).2.1
      c10ReqB).1 = (fetchHandler c2World envStd stReady c10ReqA).1 ∧
    gatewayCalls (fetchHandler c2World envStd
      (fetchHandler c2World envStd stReady c10ReqA).2.1 c10ReqB).2.2 = [] :=
  cache_key_ignores_system_prompt c2World envStd stReady c10ReqA c10ReqB (fun s => s)
    "hello" "hello" gwGoodData (some (.jstr "Hi there")) (some "A") (some "B")
    rfl (by decide) rfl rfl (by decide) (by decide) (by decide) rfl (by decide) rfl
    rfl rfl (by decide) rfl
    (by decide) (by decide) (by decide) rfl rfl rfl
    rfl (by decide) rfl rfl (by decide) rfl rfl rfl

end AiSpeech
